import Mathlib

/-!
Verification of the partition index mapper of `fipy/meshes/grid1D.py`.

The mapper consists of eight property accessors on `Grid1D`, each returning
`numerix.arange(lo, hi)` for bounds computed from the resolved geometry
`(offset, overlap, nx, numberOfFaces)`.  We embed the geometry as a record of
integers, `arange` as the list of integers of the half-open interval
`[lo, hi)` (empty when `hi ≤ lo`, exactly as NumPy's integer `arange`), and
each accessor literally from its source formula.
-/

/-- NumPy's `arange(lo, hi)` for integer arguments and unit step: the list
`[lo, lo+1, ..., hi-1]`, empty when `hi ≤ lo`. -/
def arange (lo hi : Int) : List Int :=
  (List.range (hi - lo).toNat).map (fun k : Nat => lo + (k : Int))

/-- The per-side ghost widths, `self.overlap['left']` / `self.overlap['right']`
in the source. -/
structure Overlap where
  left : Int
  right : Int

/-- The resolved geometry fields of `Grid1D` that the eight ID accessors read:
`self.offset`, `self.overlap`, `self.nx`, `self.numberOfFaces`. -/
structure Grid1D where
  offset : Int
  overlap : Overlap
  nx : Int
  numberOfFaces : Int

/-- `Grid1D._globalNonOverlappingCellIDs`:
`arange(self.offset + self.overlap['left'], self.offset + self.nx - self.overlap['right'])`. -/
def _globalNonOverlappingCellIDs (m : Grid1D) : List Int :=
  arange (m.offset + m.overlap.left) (m.offset + m.nx - m.overlap.right)

/-- `Grid1D._globalOverlappingCellIDs`:
`arange(self.offset, self.offset + self.nx)`. -/
def _globalOverlappingCellIDs (m : Grid1D) : List Int :=
  arange m.offset (m.offset + m.nx)

/-- `Grid1D._localNonOverlappingCellIDs`:
`arange(self.overlap['left'], self.nx - self.overlap['right'])`. -/
def _localNonOverlappingCellIDs (m : Grid1D) : List Int :=
  arange m.overlap.left (m.nx - m.overlap.right)

/-- `Grid1D._localOverlappingCellIDs`: `arange(0, self.nx)`. -/
def _localOverlappingCellIDs (m : Grid1D) : List Int :=
  arange 0 m.nx

/-- `Grid1D._globalNonOverlappingFaceIDs`:
`arange(self.offset + self.overlap['left'], self.offset + self.numberOfFaces - self.overlap['right'])`. -/
def _globalNonOverlappingFaceIDs (m : Grid1D) : List Int :=
  arange (m.offset + m.overlap.left) (m.offset + m.numberOfFaces - m.overlap.right)

/-- `Grid1D._globalOverlappingFaceIDs`:
`arange(self.offset, self.offset + self.numberOfFaces)`. -/
def _globalOverlappingFaceIDs (m : Grid1D) : List Int :=
  arange m.offset (m.offset + m.numberOfFaces)

/-- `Grid1D._localNonOverlappingFaceIDs`:
`arange(self.overlap['left'], self.numberOfFaces - self.overlap['right'])`. -/
def _localNonOverlappingFaceIDs (m : Grid1D) : List Int :=
  arange m.overlap.left (m.numberOfFaces - m.overlap.right)

/-- `Grid1D._localOverlappingFaceIDs`: `arange(0, self.numberOfFaces)`. -/
def _localOverlappingFaceIDs (m : Grid1D) : List Int :=
  arange 0 m.numberOfFaces

/-- Membership in `arange lo hi` is exactly the half-open interval `[lo, hi)`. -/
theorem mem_arange {i : Int} {lo hi : Int} : i ∈ arange lo hi ↔ lo ≤ i ∧ i < hi := by
  simp only [arange, List.mem_map, List.mem_range]
  constructor
  · rintro ⟨k, hk, rfl⟩
    omega
  · rintro ⟨h1, h2⟩
    exact ⟨(i - lo).toNat, by omega, by omega⟩

/-- The length of `arange lo hi` is `hi - lo` clamped to zero. -/
theorem length_arange (lo hi : Int) : (arange lo hi).length = (hi - lo).toNat := by
  rw [arange, List.length_map, List.length_range]

/-- `arange lo hi` is empty whenever `hi ≤ lo`. -/
theorem arange_eq_nil {lo hi : Int} (h : hi ≤ lo) : arange lo hi = [] := by
  have h0 : (hi - lo).toNat = 0 := by omega
  simp [arange, h0]

/-- Consecutive elements of `arange` differ by exactly one. -/
theorem chain'_arange (lo hi : Int) :
    List.Chain' (fun a b => b = a + 1) (arange lo hi) := by
  rw [List.chain'_iff_get]
  intro i h
  simp only [arange, List.get_eq_getElem, List.getElem_map, List.getElem_range]
  push_cast
  ring

/-- Shifting both bounds of `arange` shifts the list element-wise. -/
theorem arange_map_add (lo hi a : Int) :
    arange (lo + a) (hi + a) = (arange lo hi).map (fun x => x + a) := by
  simp only [arange, List.map_map]
  have h : hi + a - (lo + a) = hi - lo := by ring
  rw [h]
  congr 1
  funext k
  simp only [Function.comp_apply]
  ring

/-- Modelled from the spec: the grid builder (an external collaborator, not
under `src/`) decomposes one global 1D grid among `k` workers with the
standard 1-cell/face halo convention of the spec's two-worker scenario.
The decomposition is given by cut points `s 0 = 0 < s 1 < ... < s k`:
worker `i` owns cells `[s i, s (i+1))`, holds one ghost cell on each side
that has a neighbor (none at the global domain boundary), its `offset` is
the global index of its first (possibly ghost) cell, and
`numberOfFaces = nx + 1`. -/
def workerGeom (s : Nat → Int) (k i : Nat) : Grid1D :=
  ⟨s i - (if i = 0 then 0 else 1),
   ⟨(if i = 0 then 0 else 1), (if i = k - 1 then 0 else 1)⟩,
   (s (i + 1) - s i) + (if i = 0 then 0 else 1) + (if i = k - 1 then 0 else 1),
   (s (i + 1) - s i) + (if i = 0 then 0 else 1) + (if i = k - 1 then 0 else 1) + 1⟩

/-- The halo widths cancel: worker `i`'s global non-overlapping cell range is
exactly its owned slab `[s i, s (i+1))`. -/
theorem workerGeom_cells (s : Nat → Int) (k i : Nat) :
    _globalNonOverlappingCellIDs (workerGeom s k i) = arange (s i) (s (i + 1)) := by
  unfold _globalNonOverlappingCellIDs workerGeom
  congr 1 <;> ring

/-- Worker `i`'s global non-overlapping face range is `[s i, s (i+1) + 1)`:
it retains both faces of the shared boundary cell. -/
theorem workerGeom_faces (s : Nat → Int) (k i : Nat) :
    _globalNonOverlappingFaceIDs (workerGeom s k i) = arange (s i) (s (i + 1) + 1) := by
  unfold _globalNonOverlappingFaceIDs workerGeom
  congr 1 <;> ring

/-- Cut points are monotone below `k`. -/
theorem cuts_mono (s : Nat → Int) (k : Nat) (hs : ∀ j, j < k → s j < s (j + 1))
    (a : Nat) : ∀ b : Nat, a ≤ b → b ≤ k → s a ≤ s b := by
  intro b
  induction b with
  | zero =>
    intro hab _
    have ha : a = 0 := by omega
    rw [ha]
  | succ n ih =>
    intro hab hbk
    rcases Nat.lt_or_ge a (n + 1) with h | h
    · have h1 : s a ≤ s n := ih (by omega) (by omega)
      have h2 : s n < s (n + 1) := hs n (by omega)
      omega
    · have ha : a = n + 1 := by omega
      rw [ha]

/-- Every point below the last cut lies in some worker's owned slab. -/
theorem cuts_locate (s : Nat → Int) :
    ∀ k : Nat, (∀ j, j < k → s j < s (j + 1)) → ∀ c : Int, s 0 ≤ c → c < s k →
      ∃ i, i < k ∧ s i ≤ c ∧ c < s (i + 1) := by
  intro k
  induction k with
  | zero =>
    intro _ c h1 h2
    omega
  | succ n ih =>
    intro hs c h1 h2
    rcases Int.lt_or_le c (s n) with h | h
    · obtain ⟨i, hi, hle, hlt⟩ := ih (fun j hj => hs j (by omega)) c h1 h
      exact ⟨i, by omega, hle, hlt⟩
    · exact ⟨n, by omega, h, h2⟩

/-- The serial (single-worker) geometry: offset 0, no overlap, `nx = N`,
`numberOfFaces = N + 1`. -/
def serialGeom (N : Int) : Grid1D := ⟨0, ⟨0, 0⟩, N, N + 1⟩

/-- Claim C1: for every geometry, the four cell-ID accessors return exactly
the contiguous half-open integer ranges of the spec table:
local-overlapping = [0, nx), local-non-overlapping =
[overlap.left, nx - overlap.right), global-overlapping =
[offset, offset + nx), global-non-overlapping =
[offset + overlap.left, offset + nx - overlap.right). -/
theorem claim_C1_cell_ranges (g : Grid1D) (i : Int) :
    (i ∈ _localOverlappingCellIDs g ↔ 0 ≤ i ∧ i < g.nx) ∧
    (i ∈ _localNonOverlappingCellIDs g ↔
      g.overlap.left ≤ i ∧ i < g.nx - g.overlap.right) ∧
    (i ∈ _globalOverlappingCellIDs g ↔ g.offset ≤ i ∧ i < g.offset + g.nx) ∧
    (i ∈ _globalNonOverlappingCellIDs g ↔
      g.offset + g.overlap.left ≤ i ∧ i < g.offset + g.nx - g.overlap.right) :=
  ⟨mem_arange, mem_arange, mem_arange, mem_arange⟩

/-- Claim C2: for every geometry, the four face-ID accessors return exactly
the contiguous half-open integer ranges of the spec table:
local-overlapping = [0, numberOfFaces), local-non-overlapping =
[overlap.left, numberOfFaces - overlap.right), global-overlapping =
[offset, offset + numberOfFaces), global-non-overlapping =
[offset + overlap.left, offset + numberOfFaces - overlap.right). -/
theorem claim_C2_face_ranges (g : Grid1D) (i : Int) :
    (i ∈ _localOverlappingFaceIDs g ↔ 0 ≤ i ∧ i < g.numberOfFaces) ∧
    (i ∈ _localNonOverlappingFaceIDs g ↔
      g.overlap.left ≤ i ∧ i < g.numberOfFaces - g.overlap.right) ∧
    (i ∈ _globalOverlappingFaceIDs g ↔ g.offset ≤ i ∧ i < g.offset + g.numberOfFaces) ∧
    (i ∈ _globalNonOverlappingFaceIDs g ↔
      g.offset + g.overlap.left ≤ i ∧ i < g.offset + g.numberOfFaces - g.overlap.right) :=
  ⟨mem_arange, mem_arange, mem_arange, mem_arange⟩

/-- Claim C5: for every geometry, both entity types and both views, the
global accessor is the local accessor shifted element-wise by `offset`
(equal lengths, i-th element of global = i-th element of local + offset). -/
theorem claim_C5_global_is_local_plus_offset (g : Grid1D) :
    (_globalOverlappingCellIDs g =
      (_localOverlappingCellIDs g).map (fun x => x + g.offset) ∧
     (_globalOverlappingCellIDs g).length = (_localOverlappingCellIDs g).length) ∧
    (_globalNonOverlappingCellIDs g =
      (_localNonOverlappingCellIDs g).map (fun x => x + g.offset) ∧
     (_globalNonOverlappingCellIDs g).length = (_localNonOverlappingCellIDs g).length) ∧
    (_globalOverlappingFaceIDs g =
      (_localOverlappingFaceIDs g).map (fun x => x + g.offset) ∧
     (_globalOverlappingFaceIDs g).length = (_localOverlappingFaceIDs g).length) ∧
    (_globalNonOverlappingFaceIDs g =
      (_localNonOverlappingFaceIDs g).map (fun x => x + g.offset) ∧
     (_globalNonOverlappingFaceIDs g).length = (_localNonOverlappingFaceIDs g).length) := by
  have hc1 : _globalOverlappingCellIDs g =
      (_localOverlappingCellIDs g).map (fun x => x + g.offset) := by
    have h := arange_map_add 0 g.nx g.offset
    have e1 : (0 : Int) + g.offset = g.offset := by ring
    have e2 : g.nx + g.offset = g.offset + g.nx := by ring
    rw [e1, e2] at h
    exact h
  have hc2 : _globalNonOverlappingCellIDs g =
      (_localNonOverlappingCellIDs g).map (fun x => x + g.offset) := by
    have h := arange_map_add g.overlap.left (g.nx - g.overlap.right) g.offset
    have e1 : g.overlap.left + g.offset = g.offset + g.overlap.left := by ring
    have e2 : g.nx - g.overlap.right + g.offset = g.offset + g.nx - g.overlap.right := by
      ring
    rw [e1, e2] at h
    exact h
  have hf1 : _globalOverlappingFaceIDs g =
      (_localOverlappingFaceIDs g).map (fun x => x + g.offset) := by
    have h := arange_map_add 0 g.numberOfFaces g.offset
    have e1 : (0 : Int) + g.offset = g.offset := by ring
    have e2 : g.numberOfFaces + g.offset = g.offset + g.numberOfFaces := by ring
    rw [e1, e2] at h
    exact h
  have hf2 : _globalNonOverlappingFaceIDs g =
      (_localNonOverlappingFaceIDs g).map (fun x => x + g.offset) := by
    have h := arange_map_add g.overlap.left (g.numberOfFaces - g.overlap.right) g.offset
    have e1 : g.overlap.left + g.offset = g.offset + g.overlap.left := by ring
    have e2 : g.numberOfFaces - g.overlap.right + g.offset =
        g.offset + g.numberOfFaces - g.overlap.right := by ring
    rw [e1, e2] at h
    exact h
  exact ⟨⟨hc1, by rw [hc1, List.length_map]⟩, ⟨hc2, by rw [hc2, List.length_map]⟩,
         ⟨hf1, by rw [hf1, List.length_map]⟩, ⟨hf2, by rw [hf2, List.length_map]⟩⟩

/-- Claim C6: the spec's concrete two-worker scenario (global grid of 4 cells
and 5 faces). Worker A has offset 0, overlap left 0 right 1, nx 3; worker B
has offset 1, overlap left 1 right 0, nx 3; both have 4 local faces. The
stated cell ranges come out exactly as listed. -/
theorem claim_C6_two_worker_scenario :
    _localNonOverlappingCellIDs ⟨0, ⟨0, 1⟩, 3, 4⟩ = [0, 1] ∧
    _localOverlappingCellIDs ⟨0, ⟨0, 1⟩, 3, 4⟩ = [0, 1, 2] ∧
    _globalNonOverlappingCellIDs ⟨0, ⟨0, 1⟩, 3, 4⟩ = [0, 1] ∧
    _globalOverlappingCellIDs ⟨0, ⟨0, 1⟩, 3, 4⟩ = [0, 1, 2] ∧
    _localNonOverlappingCellIDs ⟨1, ⟨1, 0⟩, 3, 4⟩ = [1, 2] ∧
    _globalNonOverlappingCellIDs ⟨1, ⟨1, 0⟩, 3, 4⟩ = [2, 3] ∧
    _globalOverlappingCellIDs ⟨1, ⟨1, 0⟩, 3, 4⟩ = [1, 2, 3] := by
  decide

/-- Claim C7: for the serial geometry (offset 0, overlap 0/0, nx = N,
numberOfFaces = N + 1), all four cell accessors return [0, N) and all four
face accessors return [0, N + 1), for every N with no special-casing. -/
theorem claim_C7_serial_collapse (N : Int) :
    _localOverlappingCellIDs (serialGeom N) = arange 0 N ∧
    _localNonOverlappingCellIDs (serialGeom N) = arange 0 N ∧
    _globalOverlappingCellIDs (serialGeom N) = arange 0 N ∧
    _globalNonOverlappingCellIDs (serialGeom N) = arange 0 N ∧
    _localOverlappingFaceIDs (serialGeom N) = arange 0 (N + 1) ∧
    _localNonOverlappingFaceIDs (serialGeom N) = arange 0 (N + 1) ∧
    _globalOverlappingFaceIDs (serialGeom N) = arange 0 (N + 1) ∧
    _globalNonOverlappingFaceIDs (serialGeom N) = arange 0 (N + 1) := by
  refine ⟨?_, ?_, ?_, ?_, ?_, ?_, ?_, ?_⟩
  all_goals
    simp only [serialGeom, _localOverlappingCellIDs, _localNonOverlappingCellIDs,
      _globalOverlappingCellIDs, _globalNonOverlappingCellIDs, _localOverlappingFaceIDs,
      _localNonOverlappingFaceIDs, _globalOverlappingFaceIDs, _globalNonOverlappingFaceIDs]
  all_goals congr 1 <;> ring

/-- Claim C10: the local-overlapping accessors depend only on nx (cells),
respectively numberOfFaces (faces): any two geometries agreeing on that
count produce identical local-overlapping IDs, whatever offset and overlap. -/
theorem claim_C10_local_overlapping_independent :
    (∀ g₁ g₂ : Grid1D, g₁.nx = g₂.nx →
      _localOverlappingCellIDs g₁ = _localOverlappingCellIDs g₂) ∧
    (∀ g₁ g₂ : Grid1D, g₁.numberOfFaces = g₂.numberOfFaces →
      _localOverlappingFaceIDs g₁ = _localOverlappingFaceIDs g₂) := by
  constructor
  · intro g₁ g₂ h
    unfold _localOverlappingCellIDs
    rw [h]
  · intro g₁ g₂ h
    unfold _localOverlappingFaceIDs
    rw [h]

/-- Witness for claim C10 at two concrete geometries that differ in offset
and overlap but agree on the counts. -/
theorem claim_C10_witness :
    _localOverlappingCellIDs ⟨0, ⟨0, 0⟩, 3, 4⟩ =
      _localOverlappingCellIDs ⟨7, ⟨1, 2⟩, 3, 4⟩ ∧
    _localOverlappingFaceIDs ⟨0, ⟨0, 0⟩, 3, 4⟩ =
      _localOverlappingFaceIDs ⟨7, ⟨1, 2⟩, 3, 4⟩ :=
  ⟨claim_C10_local_overlapping_independent.1 ⟨0, ⟨0, 0⟩, 3, 4⟩ ⟨7, ⟨1, 2⟩, 3, 4⟩ rfl,
   claim_C10_local_overlapping_independent.2 ⟨0, ⟨0, 0⟩, 3, 4⟩ ⟨7, ⟨1, 2⟩, 3, 4⟩ rfl⟩

/-- The cut points of the spec's two-worker scenario: 0, 2, 4 (two workers
owning two cells each out of a global grid of 4 cells and 5 faces). -/
def twoCuts : Nat → Int := fun i => 2 * i

/-- A geometry violating the invariants: overlap 2 on each side of a
single-cell worker. -/
def badGeom : Grid1D := ⟨0, ⟨2, 2⟩, 1, 2⟩

/-- Claim C3 (amended): for any decomposition of one global 1D grid by cut
points s 0 = 0 < s 1 < ... < s k under the standard 1-cell/face halo
convention, the global-non-overlapping cell ranges partition
[0, globalCellCount) exactly once (no gaps, no duplicates), and the
global-non-overlapping face ranges cover [0, globalFaceCount) with no gaps —
but not exactly once: the face shared by two neighboring workers appears in
both of their ranges. -/
theorem claim_C3_partition_amended (s : Nat → Int) (k : Nat)
    (h0 : s 0 = 0) (hk : 0 < k) (hs : ∀ j, j < k → s j < s (j + 1)) :
    (∀ c : Int, 0 ≤ c → c < s k →
      ∃! i, i < k ∧ c ∈ _globalNonOverlappingCellIDs (workerGeom s k i)) ∧
    (∀ i, i < k → ∀ c ∈ _globalNonOverlappingCellIDs (workerGeom s k i),
      0 ≤ c ∧ c < s k) ∧
    (∀ f : Int, 0 ≤ f → f < s k + 1 →
      ∃ i, i < k ∧ f ∈ _globalNonOverlappingFaceIDs (workerGeom s k i)) := by
  have hmemC : ∀ (i : Nat) (c : Int),
      c ∈ _globalNonOverlappingCellIDs (workerGeom s k i) ↔
        s i ≤ c ∧ c < s (i + 1) := by
    intro i c
    rw [workerGeom_cells, mem_arange]
  have hmemF : ∀ (i : Nat) (f : Int),
      f ∈ _globalNonOverlappingFaceIDs (workerGeom s k i) ↔
        s i ≤ f ∧ f < s (i + 1) + 1 := by
    intro i f
    rw [workerGeom_faces, mem_arange]
  refine ⟨?_, ?_, ?_⟩
  · intro c hc0 hck
    obtain ⟨i, hik, hle, hlt⟩ := cuts_locate s k hs c (by omega) hck
    refine ⟨i, ⟨hik, (hmemC i c).mpr ⟨hle, hlt⟩⟩, ?_⟩
    rintro j ⟨hjk, hjm⟩
    rw [hmemC j c] at hjm
    by_contra hne
    rcases Nat.lt_or_ge j i with h | h
    · have hmono : s (j + 1) ≤ s i := cuts_mono s k hs (j + 1) i (by omega) (by omega)
      omega
    · have hmono : s (i + 1) ≤ s j := cuts_mono s k hs (i + 1) j (by omega) (by omega)
      omega
  · intro i hik c hc
    rw [hmemC i c] at hc
    have h1 : s 0 ≤ s i := cuts_mono s k hs 0 i (by omega) (by omega)
    have h2 : s (i + 1) ≤ s k := cuts_mono s k hs (i + 1) k (by omega) (by omega)
    omega
  · intro f hf0 hfk
    rcases Int.lt_or_le f (s k) with h | h
    · obtain ⟨i, hik, hle, hlt⟩ := cuts_locate s k hs f (by omega) h
      exact ⟨i, hik, (hmemF i f).mpr ⟨hle, by omega⟩⟩
    · refine ⟨k - 1, by omega, (hmemF (k - 1) f).mpr ⟨?_, ?_⟩⟩
      · have hmono : s (k - 1) ≤ s k := cuts_mono s k hs (k - 1) k (by omega) (by omega)
        omega
      · have hk1 : k - 1 + 1 = k := by omega
        rw [hk1]
        omega

/-- Counterexample to claim C3 as stated: in the spec's own two-worker
scenario, global face ID 2 (the shared boundary face) lies in the
global-non-overlapping face range of both workers, so it does not appear
exactly once. -/
theorem claim_C3_counterexample :
    (2 : Int) ∈ _globalNonOverlappingFaceIDs (workerGeom twoCuts 2 0) ∧
    (2 : Int) ∈ _globalNonOverlappingFaceIDs (workerGeom twoCuts 2 1) ∧
    ¬ ∃! i : Nat, i < 2 ∧
        (2 : Int) ∈ _globalNonOverlappingFaceIDs (workerGeom twoCuts 2 i) := by
  refine ⟨by decide, by decide, ?_⟩
  rintro ⟨i, ⟨hi, hmem⟩, huniq⟩
  have h0 : 0 = i := huniq 0 ⟨by decide, by decide⟩
  have h1 : 1 = i := huniq 1 ⟨by decide, by decide⟩
  omega

/-- Witness for the amended claim C3 at the two-worker scenario: global cell
ID 3 belongs to exactly one worker's global-non-overlapping cell range. -/
theorem claim_C3_amended_witness :
    ∃! i : Nat, i < 2 ∧
      (3 : Int) ∈ _globalNonOverlappingCellIDs (workerGeom twoCuts 2 i) :=
  (claim_C3_partition_amended twoCuts 2 (by decide) (by omega)
    (fun j hj => by simp only [twoCuts]; omega)).1 3 (by decide) (by decide)

/-- Counterexample to claim C4 as stated: for the invariant-violating
geometry with overlap 2/2 and nx = 1, the difference of the
local-non-overlapping cell bounds is -3, but the accessor's result has
length 0, not -3. -/
theorem claim_C4_counterexample :
    badGeom.overlap.left + badGeom.overlap.right > badGeom.nx ∧
    badGeom.nx - badGeom.overlap.right - badGeom.overlap.left = -3 ∧
    ((_localNonOverlappingCellIDs badGeom).length : Int) ≠ -3 ∧
    (_localNonOverlappingCellIDs badGeom).length = 0 := by
  decide

/-- Claim C4 (amended): for a geometry violating the invariants
(overlap.left + overlap.right > nx), the accessors perform no validation and
raise no error; the non-overlapping accessors silently return the empty
range (length 0, the negative bound difference clamped to zero) rather than
failing. -/
theorem claim_C4_amended_no_validation :
    badGeom.overlap.left + badGeom.overlap.right > badGeom.nx ∧
    _localNonOverlappingCellIDs badGeom = [] ∧
    _localNonOverlappingFaceIDs badGeom = [] ∧
    _globalNonOverlappingCellIDs badGeom = [] ∧
    _globalNonOverlappingFaceIDs badGeom = [] ∧
    (_localNonOverlappingCellIDs badGeom).length =
      (badGeom.nx - badGeom.overlap.right - badGeom.overlap.left).toNat := by
  decide

/-- Claim C8: for every geometry satisfying the invariants (non-negative
offset and overlaps, overlap sum bounded by the counts), each of the eight
accessors yields a sequence that is empty or strictly increasing with
consecutive elements differing by exactly one. -/
theorem claim_C8_contiguous (g : Grid1D)
    (hL : 0 ≤ g.overlap.left) (hR : 0 ≤ g.overlap.right) (hO : 0 ≤ g.offset)
    (hc : g.overlap.left + g.overlap.right ≤ g.nx)
    (hf : g.overlap.left + g.overlap.right ≤ g.numberOfFaces) :
    List.Chain' (fun a b => b = a + 1) (_localOverlappingCellIDs g) ∧
    List.Chain' (fun a b => b = a + 1) (_localNonOverlappingCellIDs g) ∧
    List.Chain' (fun a b => b = a + 1) (_globalOverlappingCellIDs g) ∧
    List.Chain' (fun a b => b = a + 1) (_globalNonOverlappingCellIDs g) ∧
    List.Chain' (fun a b => b = a + 1) (_localOverlappingFaceIDs g) ∧
    List.Chain' (fun a b => b = a + 1) (_localNonOverlappingFaceIDs g) ∧
    List.Chain' (fun a b => b = a + 1) (_globalOverlappingFaceIDs g) ∧
    List.Chain' (fun a b => b = a + 1) (_globalNonOverlappingFaceIDs g) :=
  ⟨chain'_arange _ _, chain'_arange _ _, chain'_arange _ _, chain'_arange _ _,
   chain'_arange _ _, chain'_arange _ _, chain'_arange _ _, chain'_arange _ _⟩

/-- Witness for claim C8 at a concrete valid geometry. -/
theorem claim_C8_witness :
    List.Chain' (fun a b => b = a + 1) (_localOverlappingCellIDs ⟨1, ⟨1, 1⟩, 3, 4⟩) ∧
    List.Chain' (fun a b => b = a + 1) (_localNonOverlappingCellIDs ⟨1, ⟨1, 1⟩, 3, 4⟩) ∧
    List.Chain' (fun a b => b = a + 1) (_globalOverlappingCellIDs ⟨1, ⟨1, 1⟩, 3, 4⟩) ∧
    List.Chain' (fun a b => b = a + 1) (_globalNonOverlappingCellIDs ⟨1, ⟨1, 1⟩, 3, 4⟩) ∧
    List.Chain' (fun a b => b = a + 1) (_localOverlappingFaceIDs ⟨1, ⟨1, 1⟩, 3, 4⟩) ∧
    List.Chain' (fun a b => b = a + 1) (_localNonOverlappingFaceIDs ⟨1, ⟨1, 1⟩, 3, 4⟩) ∧
    List.Chain' (fun a b => b = a + 1) (_globalOverlappingFaceIDs ⟨1, ⟨1, 1⟩, 3, 4⟩) ∧
    List.Chain' (fun a b => b = a + 1) (_globalNonOverlappingFaceIDs ⟨1, ⟨1, 1⟩, 3, 4⟩) :=
  claim_C8_contiguous ⟨1, ⟨1, 1⟩, 3, 4⟩ (by decide) (by decide) (by decide)
    (by decide) (by decide)

/-- Claim C9: every accessor is total over all integer geometries (each is a
total function in this embedding, raising nothing), and whenever its upper
bound is at most its lower bound it returns the empty sequence — length 0,
never a negative length. -/
theorem claim_C9_empty_when_inverted (g : Grid1D) :
    (g.nx ≤ 0 → _localOverlappingCellIDs g = []) ∧
    (g.nx - g.overlap.right ≤ g.overlap.left → _localNonOverlappingCellIDs g = []) ∧
    (g.offset + g.nx ≤ g.offset → _globalOverlappingCellIDs g = []) ∧
    (g.offset + g.nx - g.overlap.right ≤ g.offset + g.overlap.left →
      _globalNonOverlappingCellIDs g = []) ∧
    (g.numberOfFaces ≤ 0 → _localOverlappingFaceIDs g = []) ∧
    (g.numberOfFaces - g.overlap.right ≤ g.overlap.left →
      _localNonOverlappingFaceIDs g = []) ∧
    (g.offset + g.numberOfFaces ≤ g.offset → _globalOverlappingFaceIDs g = []) ∧
    (g.offset + g.numberOfFaces - g.overlap.right ≤ g.offset + g.overlap.left →
      _globalNonOverlappingFaceIDs g = []) := by
  simp only [_localOverlappingCellIDs, _localNonOverlappingCellIDs,
    _globalOverlappingCellIDs, _globalNonOverlappingCellIDs, _localOverlappingFaceIDs,
    _localNonOverlappingFaceIDs, _globalOverlappingFaceIDs, _globalNonOverlappingFaceIDs]
  refine ⟨?_, ?_, ?_, ?_, ?_, ?_, ?_, ?_⟩
  all_goals intro h
  all_goals exact arange_eq_nil (by omega)

/-- Witness for claim C9 at the degenerate empty mesh with
invariant-violating overlaps. -/
theorem claim_C9_witness :
    _localOverlappingCellIDs ⟨0, ⟨2, 2⟩, 0, 0⟩ = [] ∧
    _localNonOverlappingCellIDs ⟨0, ⟨2, 2⟩, 0, 0⟩ = [] ∧
    _globalOverlappingCellIDs ⟨0, ⟨2, 2⟩, 0, 0⟩ = [] ∧
    _globalNonOverlappingCellIDs ⟨0, ⟨2, 2⟩, 0, 0⟩ = [] ∧
    _localOverlappingFaceIDs ⟨0, ⟨2, 2⟩, 0, 0⟩ = [] ∧
    _localNonOverlappingFaceIDs ⟨0, ⟨2, 2⟩, 0, 0⟩ = [] ∧
    _globalOverlappingFaceIDs ⟨0, ⟨2, 2⟩, 0, 0⟩ = [] ∧
    _globalNonOverlappingFaceIDs ⟨0, ⟨2, 2⟩, 0, 0⟩ = [] :=
  ⟨(claim_C9_empty_when_inverted ⟨0, ⟨2, 2⟩, 0, 0⟩).1 (by decide),
   (claim_C9_empty_when_inverted ⟨0, ⟨2, 2⟩, 0, 0⟩).2.1 (by decide),
   (claim_C9_empty_when_inverted ⟨0, ⟨2, 2⟩, 0, 0⟩).2.2.1 (by decide),
   (claim_C9_empty_when_inverted ⟨0, ⟨2, 2⟩, 0, 0⟩).2.2.2.1 (by decide),
   (claim_C9_empty_when_inverted ⟨0, ⟨2, 2⟩, 0, 0⟩).2.2.2.2.1 (by decide),
   (claim_C9_empty_when_inverted ⟨0, ⟨2, 2⟩, 0, 0⟩).2.2.2.2.2.1 (by decide),
   (claim_C9_empty_when_inverted ⟨0, ⟨2, 2⟩, 0, 0⟩).2.2.2.2.2.2.1 (by decide),
   (claim_C9_empty_when_inverted ⟨0, ⟨2, 2⟩, 0, 0⟩).2.2.2.2.2.2.2 (by decide)⟩
